import Mathlib

/-!
# Verification of the UCP routing validator and declarative notification filter

This file is a shallow embedding, in Lean 4, of the core routing/validation
and notification logic of the Radius universal control plane (UCP):

* the routing validator (`ValidateRadiusPlane`, `ValidateResourceGroup`,
  `ValidateResourceType`, `ValidateLegacyResourceProvider`,
  `ValidateDownstream`) from the `resourcegroups` frontend controller package;
* the declarative notification filter (`DeclarativeFilter.notify`,
  `provisioningState`, `setProvisioningState`) from the `notifications`
  package;
* the versioned-API provisioning-state conversion
  (`fromProvisioningStateDataModel`) from the `dynamicrp` api package;
* spec-level models of the HTTP router dispatch contract and the
  api-version query-parameter validator.

Go strings become Lean `String`; Go maps become association lists with
first-match lookup; fallible Go functions become `Except`; the external
storage client becomes an explicit finite state (`StoreState`); `net/url.Parse`
is an abstract parameter `parse : String → Except String String` so that the
theorems quantify over every possible parser behavior.
-/

namespace Radius

/-- Errors produced by the routing validator.  `notFound` embeds the
`resourcegroups.NotFoundError` type, `invalid` embeds
`resourcegroups.InvalidError`, and `storeNotFound` embeds the storage
sentinel `store.ErrNotFound` which `ValidateResourceType` returns as-is to
signal legacy fallback. -/
inductive UCPError where
  | notFound (msg : String)
  | invalid (msg : String)
  | storeNotFound
deriving Repr, DecidableEq

/-- Go `%q` formatting of a string (as used by `fmt.Sprintf` in the error
messages; none of the strings involved contain characters that `%q`
escapes). -/
def goQuote (s : String) : String := "\"" ++ s ++ "\""

/-- ASCII lower-casing of one character (the namespace/type strings the
validator folds are ASCII). -/
def charToLower (c : Char) : Char :=
  if 65 ≤ c.toNat ∧ c.toNat ≤ 90 then Char.ofNat (c.toNat + 32) else c

/-- Go `strings.ToLower`, restricted to ASCII. -/
def strToLower (s : String) : String := ⟨s.data.map charToLower⟩

/-- Is `pre` a prefix of `s` (on character lists)? -/
def isPre : List Char → List Char → Bool
  | [], _ => true
  | _ :: _, [] => false
  | p :: ps, c :: cs => p == c && isPre ps cs

/-- Go `strings.TrimPrefix`: drop `pre` from the front of `s` when it is a
prefix, otherwise return `s` unchanged. -/
def trimPre (s pre : String) : String :=
  if isPre pre.data s.data then ⟨s.data.drop pre.data.length⟩ else s

/-- Go `strings.EqualFold`, restricted to the ASCII case folding that the
resource-type and namespace strings use. -/
def equalFold (a b : String) : Bool := strToLower a == strToLower b

/-- Modelled from the spec: a `ResourceID` is a sequence of scope segments
`planes/{planeType}/{planeName}[/resourceGroups/{name}]` followed by
`providers/{namespace}` and type/name pairs (spec §3).  The parsing code of
`resources.ID` is not part of the source subset; this structure is its
already-parsed form. -/
structure ResourceID where
  planeType : String
  planeName : String
  resourceGroup : Option String
  providerNamespace : String
  typeSegments : List (String × String)
deriving Repr, DecidableEq

/-- Modelled from the spec: `ResourceID.PlaneScope` derived view (spec §3). -/
def PlaneScope (id : ResourceID) : String :=
  "/planes/" ++ id.planeType ++ "/" ++ id.planeName

/-- Modelled from the spec: `ResourceID.RootScope` derived view — the scope
portion including the resource group segment when present (spec §3). -/
def RootScope (id : ResourceID) : String :=
  PlaneScope id ++
    (match id.resourceGroup with
     | some g => "/resourceGroups/" ++ g
     | none => "")

/-- Modelled from the spec: `ResourceID.ProviderNamespace` derived view. -/
def ProviderNamespace (id : ResourceID) : String := id.providerNamespace

/-- Modelled from the spec: `ResourceID.Type` derived view — the provider
namespace qualified by the type segments, e.g.
`Applications.Core/containers`. -/
def IDType (id : ResourceID) : String :=
  id.providerNamespace ++ String.join (id.typeSegments.map (fun t => "/" ++ t.1))

/-- `resources.SegmentSeparator`. -/
def SegmentSeparator : String := "/"

/-- `resources.ProvidersSegment`. -/
def ProvidersSegment : String := "providers"

/-- `datamodel.ResourceProviderResourceType` (the qualified type of the
`System.Resources/resourceProviders` resources, from the id format in the
source's own example comment). -/
def ResourceProviderResourceType : String := "System.Resources/resourceProviders"

/-- `datamodel.LocationUnqualifiedResourceType`: the unqualified type of
Location resources; the source routes address them as `locations/{name}`. -/
def LocationUnqualifiedResourceType : String := "locations"

/-- `datamodel.ResourceProviderIDFromResourceID`: converts an inbound
resource id to the id of its resource provider, e.g.
`/planes/radius/local/providers/Applications.Test/testResources/foo` to
`/planes/radius/local/providers/System.Resources/resourceProviders/Applications.Test`.
The result is kept in its string form (the store is keyed by id strings). -/
def ResourceProviderIDFromResourceID (id : ResourceID) : String :=
  PlaneScope id ++
    SegmentSeparator ++ ProvidersSegment ++
    SegmentSeparator ++ ResourceProviderResourceType ++
    SegmentSeparator ++ ProviderNamespace id

/-- The id string of the Location resource for `(id, locationName)`:
`providerID.Append(TypeSegment{locations, locationName})`. -/
def LocationID (id : ResourceID) (locationName : String) : String :=
  ResourceProviderIDFromResourceID id ++
    SegmentSeparator ++ LocationUnqualifiedResourceType ++
    SegmentSeparator ++ locationName

/-- `datamodel.LocationResourceTypeConfiguration`: the per-resource-type
configuration of a Location; `apiVersions` holds the keys of its
`APIVersions` map. -/
structure LocationResourceTypeConfiguration where
  apiVersions : List String
deriving Repr, DecidableEq

/-- `datamodel.LocationProperties`: an optional downstream address and the
resource-type table (a Go map, embedded as an association list). -/
structure LocationProperties where
  address : Option String
  resourceTypes : List (String × LocationResourceTypeConfiguration)
deriving Repr, DecidableEq

/-- `datamodel.Location`. -/
structure Location where
  properties : LocationProperties
deriving Repr, DecidableEq

/-- `datamodel.RadiusPlane`: only the legacy `resourceProviders` map
(namespace to downstream URL) is relevant to the validator. -/
structure RadiusPlane where
  resourceProviders : List (String × String)
deriving Repr, DecidableEq

/-- Modelled from the spec: `RadiusPlane.LookupResourceProvider` is the
legacy map lookup `plane.resourceProviders[namespace]` (spec §4.3 step 4);
a Go map read returns the zero value `""` for an absent key. -/
def LookupResourceProvider (plane : RadiusPlane) (ns : String) : String :=
  match plane.resourceProviders.lookup ns with
  | some url => url
  | none => ""

/-- The state of the pluggable key/value store visible to the validator:
planes keyed by plane-scope id string, existing resource-group ids, and
Location resources keyed by their id string.  Each typed read
`store.GetResource[T]` becomes a lookup in the corresponding table. -/
structure StoreState where
  planes : List (String × RadiusPlane)
  resourceGroups : List String
  locations : List (String × Location)
deriving Repr, DecidableEq

/-- `resourcegroups.ValidateRadiusPlane`: resolves the plane for
`id.PlaneScope()`; absent ⇒ `NotFoundError`. -/
def ValidateRadiusPlane (st : StoreState) (id : ResourceID) : Except UCPError RadiusPlane :=
  match st.planes.lookup (PlaneScope id) with
  | none => .error (.notFound ("plane " ++ goQuote (PlaneScope id) ++ " not found"))
  | some plane => .ok plane

/-- `resourcegroups.ValidateResourceGroup`: if the id contains a
`resourceGroups` scope segment, the resource group's scope must exist;
ids without the segment skip the check. -/
def ValidateResourceGroup (st : StoreState) (id : ResourceID) : Except UCPError Unit :=
  match id.resourceGroup with
  | none => .ok ()
  | some _ =>
    if st.resourceGroups.contains (RootScope id) then
      .ok ()
    else
      .error (.notFound ("resource group " ++ goQuote (RootScope id) ++ " not found"))

/-- The search key used by `ValidateResourceType`: the lower-cased type with
the lower-cased provider-namespace prefix (plus separator) trimmed
(`strings.TrimPrefix(strings.ToLower(id.Type()), strings.ToLower(id.ProviderNamespace())+"/")`). -/
def searchType (id : ResourceID) : String :=
  trimPre (strToLower (IDType id)) (strToLower (ProviderNamespace id) ++ SegmentSeparator)

/-- The case-insensitive first match of the id's type against the location's
resource-type table (the `for name, rt := range ... strings.EqualFold`
loop). -/
def findLocationResourceType (loc : Location) (id : ResourceID) :
    Option (String × LocationResourceTypeConfiguration) :=
  loc.properties.resourceTypes.find? (fun p => equalFold p.1 (searchType id))

/-- `resourcegroups.ValidateResourceType`: looks up the Location resource,
returning the store's not-found sentinel as-is (legacy fallback signal);
otherwise checks the resource-type table (case-insensitively), then the API
version set, then parses the declared address (`none` means handle locally
via the dynamic engine).  `parse` abstracts `net/url.Parse`. -/
def ValidateResourceType (parse : String → Except String String) (st : StoreState)
    (id : ResourceID) (locationName apiVersion : String) :
    Except UCPError (Option String) :=
  match st.locations.lookup (LocationID id locationName) with
  | none => .error .storeNotFound
  | some location =>
    match findLocationResourceType location id with
    | none =>
      .error (.invalid ("resource type " ++ goQuote (IDType id) ++
        " not supported by location " ++ goQuote locationName))
    | some rt =>
      if rt.2.apiVersions.contains apiVersion then
        match location.properties.address with
        | none => .ok none
        | some addr =>
          match parse addr with
          | .error e => .error (.invalid ("failed to parse location address: " ++ e))
          | .ok u => .ok (some u)
      else
        .error (.invalid ("api version " ++ goQuote apiVersion ++
          " is not supported for resource type " ++ goQuote (IDType id) ++
          " by location " ++ goQuote locationName))

/-- `resourcegroups.ValidateLegacyResourceProvider`: the legacy routing
path — look up the plane's `resourceProviders` map; an absent entry is
`InvalidError`, otherwise the entry is parsed as the downstream URL. -/
def ValidateLegacyResourceProvider (parse : String → Except String String)
    (id : ResourceID) (plane : RadiusPlane) : Except UCPError String :=
  let downstream := LookupResourceProvider plane (ProviderNamespace id)
  if downstream == "" then
    .error (.invalid ("resource provider " ++ ProviderNamespace id ++ " not configured"))
  else
    match parse downstream with
    | .error e => .error (.invalid ("failed to parse downstream URL: " ++ e))
    | .ok u => .ok u

/-- `resourcegroups.ValidateDownstream`: plane, then resource group, then
the declarative location lookup; only the store's not-found sentinel from
the location lookup falls back to the legacy resource-provider map. -/
def ValidateDownstream (parse : String → Except String String) (st : StoreState)
    (id : ResourceID) (locationName apiVersion : String) :
    Except UCPError (Option String) :=
  match ValidateRadiusPlane st id with
  | .error e => .error e
  | .ok plane =>
    match ValidateResourceGroup st id with
    | .error e => .error e
    | .ok () =>
      match ValidateResourceType parse st id locationName apiVersion with
      | .error .storeNotFound =>
        match ValidateLegacyResourceProvider parse id plane with
        | .error e => .error e
        | .ok u => .ok (some u)
      | .error e => .error e
      | .ok u => .ok u

/-- Observer: does a validator result carry a `NotFoundError`?  (The HTTP
boundary maps exactly these to 404.) -/
def isNotFound {α : Type} : Except UCPError α → Bool
  | .error (.notFound _) => true
  | _ => false

/-! ## The declarative notification filter (`notifications` package) -/

/-- JSON values, as produced by `json.Unmarshal` into `map[string]any`
(objects are association lists in encounter order). -/
inductive JSON where
  | null
  | bool (b : Bool)
  | num (n : Int)
  | str (s : String)
  | arr (elems : List JSON)
  | obj (fields : List (String × JSON))

/-- A resource object, in the decoded form the filter works on: the
top-level JSON object's fields.  (`json.Marshal` of the stored object
followed by `json.Unmarshal` into a fresh `map[string]any` yields exactly
this value; the round trip allocates fresh maps, so the decoded value never
aliases the original.) -/
abbrev Resource := List (String × JSON)

/-- Go map read `m[k]`: the value for the first (unique) matching key. -/
def getField : List (String × JSON) → String → Option JSON
  | [], _ => none
  | (k, v) :: rest, key => if k == key then some v else getField rest key

/-- Go map write `m[k] = v`: replace the entry if present, else add it. -/
def putField : List (String × JSON) → String → JSON → List (String × JSON)
  | [], key, v => [(key, v)]
  | (k, w) :: rest, key, v =>
    if k == key then (k, v) :: rest else (k, w) :: putField rest key v

/-- `v1.ProvisioningState` values used by the filter. -/
def ProvisioningStateSucceeded : String := "Succeeded"

/-- `v1.ProvisioningStateFailed`. -/
def ProvisioningStateFailed : String := "Failed"

/-- `v1.ProvisioningStateCanceled`. -/
def ProvisioningStateCanceled : String := "Canceled"

/-- `v1.ProvisioningStateUpdating`. -/
def ProvisioningStateUpdating : String := "Updating"

/-- Modelled from the spec: `v1.ProvisioningState.IsTerminal` — the type
declaration is not in the source subset; per spec §3/§4.4 the terminal
states are exactly `Succeeded`, `Failed` and `Canceled`. -/
def IsTerminal (ps : String) : Bool :=
  ps == ProvisioningStateSucceeded || ps == ProvisioningStateFailed ||
    ps == ProvisioningStateCanceled

/-- `DeclarativeFilter.provisioningState`: marshal the resource, unmarshal
into a fresh map, read `properties.provisioningState`.  A missing
`properties` key is replaced by a fresh empty map; a non-object
`properties`, a missing `provisioningState` key, or a non-string value all
yield `Succeeded`. -/
def provisioningState (resource : Resource) : String :=
  let data := resource
  let step :=
    match getField data "properties" with
    | none => (JSON.obj [], putField data "properties" (JSON.obj []))
    | some j => (j, data)
  match step.1 with
  | .obj properties =>
    match getField properties "provisioningState" with
    | some (.str ps) => ps
    | some _ => ProvisioningStateSucceeded
    | none => ProvisioningStateSucceeded
  | _ => ProvisioningStateSucceeded

/-- The value that the body of `DeclarativeFilter.setProvisioningState`
builds: the freshly-decoded copy of the resource with
`properties.provisioningState` set (Go mutates the fresh `properties` map
in place, which `data["properties"]` aliases); when `properties` exists but
is not an object the body returns early with no write. -/
def setProvisioningStateLocalCopy (resource : Resource) (ps : String) : Resource :=
  let data := resource
  let step :=
    match getField data "properties" with
    | none => (JSON.obj [], putField data "properties" (JSON.obj []))
    | some j => (j, data)
  match step.1 with
  | .obj properties =>
    putField step.2 "properties" (JSON.obj (putField properties "provisioningState" (JSON.str ps)))
  | _ => step.2

/-- `DeclarativeFilter.setProvisioningState`: the mutation above is applied
to the freshly-decoded copy only, which the function then discards (it
returns nothing and never writes back through its `any` argument), so the
caller's resource value is returned unchanged. -/
def setProvisioningState (resource : Resource) (ps : String) : Resource :=
  let _copy := setProvisioningStateLocalCopy resource ps
  resource

/-- The collaborators of `DeclarativeFilter.notify`: the storage client's
`Get` for the target id, and the outcomes of `storage.Save` and
`statusManager.QueueAsyncOperation` (each `Except String Unit`, the error
being the Go error message). -/
structure NotifyEnv where
  get : String → Except String Resource
  saveResult : Except String Unit
  queueResult : Except String Unit

/-- The observable side effects of one `notify` call: every object passed
to `storage.Save`, in order, and the number of `QueueAsyncOperation`
calls. -/
structure NotifyEffects where
  saves : List Resource
  queueCalls : Nat

/-- `DeclarativeFilter.notify`: fetch the resource; fail fast when its
provisioning state is not terminal; otherwise set `Updating` and save,
queue the async operation, and on queue failure set `Failed`, save, and
return the queue error. -/
def notify (env : NotifyEnv) (id : String) : Except String Unit × NotifyEffects :=
  match env.get id with
  | .error e => (.error e, ⟨[], 0⟩)
  | .ok obj =>
    let ps := provisioningState obj
    if IsTerminal ps then
      let obj1 := setProvisioningState obj ProvisioningStateUpdating
      match env.saveResult with
      | .error e => (.error e, ⟨[obj1], 0⟩)
      | .ok () =>
        match env.queueResult with
        | .ok () => (.ok (), ⟨[obj1], 1⟩)
        | .error e =>
          let obj2 := setProvisioningState obj1 ProvisioningStateFailed
          match env.saveResult with
          | .error saveErr => (.error saveErr, ⟨[obj1, obj2], 1⟩)
          | .ok () => (.error e, ⟨[obj1, obj2], 1⟩)
    else
      (.error ("resource " ++ id ++ " is not in a terminal state: " ++ ps), ⟨[], 0⟩)

/-- `api.fromProvisioningStateDataModel` (dynamicrp versioned-API
conversion): an empty provisioning state converts to `Succeeded`. -/
def fromProvisioningStateDataModel (input : String) : String :=
  if input == "" then ProvisioningStateSucceeded else input

/-! ## Spec-level models of the HTTP boundary -/

/-- The `{"error": {code, message}}` body shape (`v1.ErrorDetails`). -/
structure ErrorDetails where
  code : String
  message : String
deriving Repr, DecidableEq

/-- Modelled from the spec: the api-version query-parameter validator
(`validator` package, not in the source subset).  An unsupported
`api-version` yields `InvalidApiVersionParameter` with a message listing
the supported set, in the exact shape asserted by
`Test_RequestWithBadAPIVersion`. -/
def validateApiVersion (operationType : String) (supported : List String)
    (requested : String) : Option ErrorDetails :=
  if supported.contains requested then
    none
  else
    some ⟨"InvalidApiVersionParameter",
      "API version '" ++ requested ++ "' for type '" ++ operationType ++
        "' is not supported. The supported api-versions are '" ++
        String.intercalate "', '" supported ++ "'."⟩

/-- A registered route: a path pattern and the methods registered for it. -/
structure Route where
  path : String
  methods : List String
deriving Repr, DecidableEq

/-- The three ways the router can answer a request. -/
inductive DispatchOutcome where
  | handled
  | notFound
  | methodNotAllowed
deriving Repr, DecidableEq

/-- Modelled from the spec: router dispatch with the registered
`NotFound`/`MethodNotAllowed` handlers (`r.NotFound(validator.APINotFoundHandler())`,
`r.MethodNotAllowed(validator.APIMethodNotAllowedHandler())`): a request
matching no route's path answers 404, a request matching a path but no
registered method answers 405, and every request gets exactly one of the
three outcomes (dispatch is a total function — it cannot panic). -/
def dispatch (routes : List Route) (method path : String) : DispatchOutcome :=
  if routes.any (fun rt => rt.path == path && rt.methods.contains method) then
    .handled
  else if routes.any (fun rt => rt.path == path) then
    .methodNotAllowed
  else
    .notFound

/-! ## Helper lemmas -/

/-- `ValidateResourceType` never produces a `NotFoundError`: its failure
modes are the store sentinel (location absent) and `InvalidError`. -/
theorem validateResourceType_ne_notFound (parse : String → Except String String)
    (st : StoreState) (id : ResourceID) (locationName apiVersion msg : String) :
    ValidateResourceType parse st id locationName apiVersion ≠
      .error (.notFound msg) := by
  unfold ValidateResourceType
  split
  · intro h
    cases h
  · split
    · intro h
      cases h
    · split
      · split
        · intro h
          cases h
        · split
          · intro h
            cases h
          · intro h
            cases h
      · intro h
        cases h

/-- `ValidateLegacyResourceProvider` never produces a `NotFoundError`. -/
theorem validateLegacy_ne_notFound (parse : String → Except String String)
    (id : ResourceID) (plane : RadiusPlane) (msg : String) :
    ValidateLegacyResourceProvider parse id plane ≠ .error (.notFound msg) := by
  unfold ValidateLegacyResourceProvider
  dsimp only
  split
  · intro h
    cases h
  · split
    · intro h
      cases h
    · intro h
      cases h

/-! ## Claim theorems -/

/-- C1: if a Location resource exists at the provider scope for the given
location name but its resource-type table does not contain the id's type
(compared case-insensitively after stripping the provider-namespace
prefix), then `ValidateDownstream` fails with `InvalidError`
("resource type not supported by location") and does not fall back to the
plane's legacy `resourceProviders` map — the plane (and hence its legacy
map) is universally quantified, so the result is the same even when the map
contains an entry for the id's provider namespace; the legacy fallback runs
only on the location-lookup not-found sentinel. -/
theorem claim_C1_declarative_priority
    (parse : String → Except String String) (st : StoreState) (id : ResourceID)
    (locationName apiVersion : String) (plane : RadiusPlane) (loc : Location)
    (hplane : st.planes.lookup (PlaneScope id) = some plane)
    (hrg : ValidateResourceGroup st id = .ok ())
    (hloc : st.locations.lookup (LocationID id locationName) = some loc)
    (htype : findLocationResourceType loc id = none) :
    ValidateDownstream parse st id locationName apiVersion =
      .error (.invalid ("resource type " ++ goQuote (IDType id) ++
        " not supported by location " ++ goQuote locationName)) := by
  have hpl : ValidateRadiusPlane st id = .ok plane := by
    unfold ValidateRadiusPlane
    rw [hplane]
  have hvt : ValidateResourceType parse st id locationName apiVersion =
      .error (.invalid ("resource type " ++ goQuote (IDType id) ++
        " not supported by location " ++ goQuote locationName)) := by
    unfold ValidateResourceType
    rw [hloc]
    dsimp only
    rw [htype]
  unfold ValidateDownstream
  rw [hpl, hrg, hvt]

/-- Witness for C1: a concrete store whose plane has a legacy entry for
`Applications.Core` and whose `global` location lists only `widgets`; a
request for `Applications.Core/containers` is rejected as invalid. -/
theorem claim_C1_witness :
    ValidateDownstream (fun s => .ok s)
      ⟨[("/planes/radius/local", ⟨[("Applications.Core", "http://rp:8080")]⟩)],
        ["/planes/radius/local/resourceGroups/rg1"],
        [("/planes/radius/local/providers/System.Resources/resourceProviders/Applications.Core/locations/global",
          ⟨⟨none, [("widgets", ⟨["2023-10-01-preview"]⟩)]⟩⟩)]⟩
      ⟨"radius", "local", some "rg1", "Applications.Core", [("containers", "c1")]⟩
      "global" "2023-10-01-preview" =
    .error (.invalid "resource type \"Applications.Core/containers\" not supported by location \"global\"") := by
  have h := claim_C1_declarative_priority (fun s => .ok s)
    ⟨[("/planes/radius/local", ⟨[("Applications.Core", "http://rp:8080")]⟩)],
      ["/planes/radius/local/resourceGroups/rg1"],
      [("/planes/radius/local/providers/System.Resources/resourceProviders/Applications.Core/locations/global",
        ⟨⟨none, [("widgets", ⟨["2023-10-01-preview"]⟩)]⟩⟩)]⟩
    ⟨"radius", "local", some "rg1", "Applications.Core", [("containers", "c1")]⟩
    "global" "2023-10-01-preview"
    ⟨[("Applications.Core", "http://rp:8080")]⟩
    ⟨⟨none, [("widgets", ⟨["2023-10-01-preview"]⟩)]⟩⟩
    (by rfl) (by rfl) (by rfl) (by rfl)
  rw [h]
  rfl

/-- C3 (amended): for resource ids with a `resourceGroups` scope segment,
*provided the plane exists*, `ValidateDownstream` fails with
`NotFoundError` if and only if the resource group's scope does not exist in
storage — independent of whether a Location record exists (the store's
location table, and everything else, is universally quantified); and ids
without a resource-group segment skip the resource-group check entirely. -/
theorem claim_C3_rg_notFound_iff :
    (∀ (parse : String → Except String String) (st : StoreState) (id : ResourceID)
      (g locationName apiVersion : String) (plane : RadiusPlane),
      id.resourceGroup = some g →
      st.planes.lookup (PlaneScope id) = some plane →
      (isNotFound (ValidateDownstream parse st id locationName apiVersion) = true ↔
        st.resourceGroups.contains (RootScope id) = false)) ∧
    (∀ (st : StoreState) (id : ResourceID), id.resourceGroup = none →
      ValidateResourceGroup st id = .ok ()) := by
  constructor
  · intro parse st id g locationName apiVersion plane hg hplane
    have hpl : ValidateRadiusPlane st id = .ok plane := by
      unfold ValidateRadiusPlane
      rw [hplane]
    by_cases hrg : st.resourceGroups.contains (RootScope id) = true
    · have hvr : ValidateResourceGroup st id = .ok () := by
        unfold ValidateResourceGroup
        rw [hg]
        dsimp only
        rw [if_pos hrg]
      unfold ValidateDownstream
      rw [hpl, hvr]
      dsimp only
      rw [hrg]
      constructor
      · intro hnf
        exfalso
        rcases hV : ValidateResourceType parse st id locationName apiVersion with e | u
        · cases e with
          | notFound m => exact validateResourceType_ne_notFound parse st id locationName apiVersion m hV
          | invalid m =>
            rw [hV] at hnf
            simp [isNotFound] at hnf
          | storeNotFound =>
            rw [hV] at hnf
            rcases hL : ValidateLegacyResourceProvider parse id plane with e' | u'
            · cases e' with
              | notFound m => exact validateLegacy_ne_notFound parse id plane m hL
              | invalid m =>
                rw [hL] at hnf
                simp [isNotFound] at hnf
              | storeNotFound =>
                rw [hL] at hnf
                simp [isNotFound] at hnf
            · rw [hL] at hnf
              simp [isNotFound] at hnf
        · rw [hV] at hnf
          simp [isNotFound] at hnf
      · intro hfalse
        cases hfalse
    · have hrg' : st.resourceGroups.contains (RootScope id) = false :=
        Bool.not_eq_true _ ▸ Bool.of_not_eq_true hrg
      have hvr : ValidateResourceGroup st id =
          .error (.notFound ("resource group " ++ goQuote (RootScope id) ++ " not found")) := by
        unfold ValidateResourceGroup
        rw [hg]
        dsimp only
        rw [if_neg hrg]
      unfold ValidateDownstream
      rw [hpl, hvr]
      exact ⟨fun _ => hrg', fun _ => rfl⟩
  · intro st id h
    unfold ValidateResourceGroup
    rw [h]

/-- Witness for C3 (amended): with the plane present and the resource group
present (left), or the id carrying no resource-group segment (right), both
parts instantiate. -/
theorem claim_C3_witness :
    ((isNotFound (ValidateDownstream (fun s => .ok s)
        ⟨[("/planes/radius/local", ⟨[]⟩)], ["/planes/radius/local/resourceGroups/rg1"], []⟩
        ⟨"radius", "local", some "rg1", "Applications.Core", [("applications", "a1")]⟩
        "global" "v1") = true ↔
      (⟨[("/planes/radius/local", ⟨[]⟩)], ["/planes/radius/local/resourceGroups/rg1"], []⟩ :
          StoreState).resourceGroups.contains
        (RootScope ⟨"radius", "local", some "rg1", "Applications.Core", [("applications", "a1")]⟩) =
          false) ∧
    ValidateResourceGroup ⟨[], [], []⟩
      ⟨"radius", "local", none, "Applications.Core", [("applications", "a1")]⟩ = .ok ()) := by
  exact ⟨claim_C3_rg_notFound_iff.1 (fun s => .ok s)
      ⟨[("/planes/radius/local", ⟨[]⟩)], ["/planes/radius/local/resourceGroups/rg1"], []⟩
      ⟨"radius", "local", some "rg1", "Applications.Core", [("applications", "a1")]⟩
      "rg1" "global" "v1" ⟨[]⟩ (by rfl) (by rfl),
    claim_C3_rg_notFound_iff.2 ⟨[], [], []⟩
      ⟨"radius", "local", none, "Applications.Core", [("applications", "a1")]⟩ (by rfl)⟩

/-- Counterexample to C3 as stated: in a store that holds the resource
group `/planes/radius/local/resourceGroups/rg1` but not the plane (an
orphaned resource group), `ValidateDownstream` fails with `NotFoundError`
(for the plane) even though the resource group's scope *does* exist in
storage — so "fails NotFound iff the resource group's scope does not
exist" is false without a plane-existence hypothesis. -/
theorem claim_C3_counterexample :
    isNotFound (ValidateDownstream (fun s => .ok s)
      ⟨[], ["/planes/radius/local/resourceGroups/rg1"], []⟩
      ⟨"radius", "local", some "rg1", "Applications.Core", [("applications", "a1")]⟩
      "global" "v1") = true ∧
    (⟨[], ["/planes/radius/local/resourceGroups/rg1"], []⟩ : StoreState).resourceGroups.contains
      (RootScope ⟨"radius", "local", some "rg1", "Applications.Core", [("applications", "a1")]⟩) =
        true := by
  exact ⟨by rfl, by rfl⟩

/-- C4: when no Location resource exists for the requested location name
(the store lookup returns not-found), `ValidateDownstream` falls back to
the plane's legacy `resourceProviders` map: it returns the downstream URL
stored under the id's provider namespace, and for every plane whose map has
no entry for that namespace it fails with `InvalidError`
("resource provider (namespace) not configured"). -/
theorem claim_C4_legacy_fallback
    (parse : String → Except String String) (st : StoreState) (id : ResourceID)
    (locationName apiVersion : String) (plane : RadiusPlane)
    (hplane : st.planes.lookup (PlaneScope id) = some plane)
    (hrg : ValidateResourceGroup st id = .ok ())
    (hloc : st.locations.lookup (LocationID id locationName) = none) :
    (∀ u : String, LookupResourceProvider plane (ProviderNamespace id) ≠ "" →
      parse (LookupResourceProvider plane (ProviderNamespace id)) = .ok u →
      ValidateDownstream parse st id locationName apiVersion = .ok (some u)) ∧
    (LookupResourceProvider plane (ProviderNamespace id) = "" →
      ValidateDownstream parse st id locationName apiVersion =
        .error (.invalid ("resource provider " ++ ProviderNamespace id ++ " not configured"))) := by
  have hpl : ValidateRadiusPlane st id = .ok plane := by
    unfold ValidateRadiusPlane
    rw [hplane]
  have hvt : ValidateResourceType parse st id locationName apiVersion =
      .error .storeNotFound := by
    unfold ValidateResourceType
    rw [hloc]
  constructor
  · intro u hne hparse
    unfold ValidateDownstream
    rw [hpl, hrg, hvt]
    unfold ValidateLegacyResourceProvider
    dsimp only
    rw [if_neg (by simpa using hne), hparse]
  · intro hnone
    unfold ValidateDownstream
    rw [hpl, hrg, hvt]
    unfold ValidateLegacyResourceProvider
    dsimp only
    rw [if_pos (by simpa using hnone)]

/-- Witness for C4: a store with the test plane
(`Applications.Core ↦ http://127.0.0.1:7443`) and no Location record
proxies to the registered URL, while a plane with an empty map yields the
"not configured" error. -/
theorem claim_C4_witness :
    ValidateDownstream (fun s => .ok s)
      ⟨[("/planes/radius/local", ⟨[("Applications.Core", "http://127.0.0.1:7443")]⟩)],
        ["/planes/radius/local/resourceGroups/rg1"], []⟩
      ⟨"radius", "local", some "rg1", "Applications.Core", [("applications", "")]⟩
      "global" "2022-09-01-privatepreview" = .ok (some "http://127.0.0.1:7443") ∧
    ValidateDownstream (fun s => .ok s)
      ⟨[("/planes/radius/local", ⟨[]⟩)],
        ["/planes/radius/local/resourceGroups/rg1"], []⟩
      ⟨"radius", "local", some "rg1", "Applications.Core", [("applications", "")]⟩
      "global" "2022-09-01-privatepreview" =
      .error (.invalid "resource provider Applications.Core not configured") := by
  constructor
  · exact (claim_C4_legacy_fallback (fun s => .ok s)
      ⟨[("/planes/radius/local", ⟨[("Applications.Core", "http://127.0.0.1:7443")]⟩)],
        ["/planes/radius/local/resourceGroups/rg1"], []⟩
      ⟨"radius", "local", some "rg1", "Applications.Core", [("applications", "")]⟩
      "global" "2022-09-01-privatepreview"
      ⟨[("Applications.Core", "http://127.0.0.1:7443")]⟩
      (by rfl) (by rfl) (by rfl)).1 "http://127.0.0.1:7443" (by decide) (by rfl)
  · exact (claim_C4_legacy_fallback (fun s => .ok s)
      ⟨[("/planes/radius/local", ⟨[]⟩)],
        ["/planes/radius/local/resourceGroups/rg1"], []⟩
      ⟨"radius", "local", some "rg1", "Applications.Core", [("applications", "")]⟩
      "global" "2022-09-01-privatepreview"
      ⟨[]⟩ (by rfl) (by rfl) (by rfl)).2 (by rfl)

/-- C5: when the Location resource exists and its resource-type table
matches the id's type, but the requested api version is not a key of that
resource type's `APIVersions` set, `ValidateResourceType` fails with
`InvalidError` ("api version ... is not supported ...") and
`ValidateDownstream` rejects the request with the same error. -/
theorem claim_C5_apiVersion_unsupported
    (parse : String → Except String String) (st : StoreState) (id : ResourceID)
    (locationName apiVersion : String) (loc : Location)
    (rt : String × LocationResourceTypeConfiguration)
    (hloc : st.locations.lookup (LocationID id locationName) = some loc)
    (hrt : findLocationResourceType loc id = some rt)
    (hver : rt.2.apiVersions.contains apiVersion = false) :
    ValidateResourceType parse st id locationName apiVersion =
      .error (.invalid ("api version " ++ goQuote apiVersion ++
        " is not supported for resource type " ++ goQuote (IDType id) ++
        " by location " ++ goQuote locationName)) ∧
    (∀ plane : RadiusPlane, st.planes.lookup (PlaneScope id) = some plane →
      ValidateResourceGroup st id = .ok () →
      ValidateDownstream parse st id locationName apiVersion =
        .error (.invalid ("api version " ++ goQuote apiVersion ++
          " is not supported for resource type " ++ goQuote (IDType id) ++
          " by location " ++ goQuote locationName))) := by
  have hvt : ValidateResourceType parse st id locationName apiVersion =
      .error (.invalid ("api version " ++ goQuote apiVersion ++
        " is not supported for resource type " ++ goQuote (IDType id) ++
        " by location " ++ goQuote locationName)) := by
    unfold ValidateResourceType
    rw [hloc]
    dsimp only
    rw [hrt]
    dsimp only
    rw [hver]
    rfl
  refine ⟨hvt, ?_⟩
  intro plane hplane hrg
  have hpl : ValidateRadiusPlane st id = .ok plane := by
    unfold ValidateRadiusPlane
    rw [hplane]
  unfold ValidateDownstream
  rw [hpl, hrg, hvt]

/-- Witness for C5: the `global` location lists `containers` only at
`2023-10-01-preview`; requesting `2099-01-01` is rejected, both by
`ValidateResourceType` and through `ValidateDownstream`. -/
theorem claim_C5_witness :
    ValidateResourceType (fun s => .ok s)
      ⟨[("/planes/radius/local", ⟨[]⟩)], ["/planes/radius/local/resourceGroups/rg1"],
        [("/planes/radius/local/providers/System.Resources/resourceProviders/Applications.Core/locations/global",
          ⟨⟨none, [("containers", ⟨["2023-10-01-preview"]⟩)]⟩⟩)]⟩
      ⟨"radius", "local", some "rg1", "Applications.Core", [("containers", "c1")]⟩
      "global" "2099-01-01" =
      .error (.invalid "api version \"2099-01-01\" is not supported for resource type \"Applications.Core/containers\" by location \"global\"") := by
  have h := claim_C5_apiVersion_unsupported (fun s => .ok s)
    ⟨[("/planes/radius/local", ⟨[]⟩)], ["/planes/radius/local/resourceGroups/rg1"],
      [("/planes/radius/local/providers/System.Resources/resourceProviders/Applications.Core/locations/global",
        ⟨⟨none, [("containers", ⟨["2023-10-01-preview"]⟩)]⟩⟩)]⟩
    ⟨"radius", "local", some "rg1", "Applications.Core", [("containers", "c1")]⟩
    "global" "2099-01-01"
    ⟨⟨none, [("containers", ⟨["2023-10-01-preview"]⟩)]⟩⟩
    ("containers", ⟨["2023-10-01-preview"]⟩)
    (by rfl) (by rfl) (by rfl)
  rw [h.1]
  rfl

/-- C6: when the Location resource matches both the resource type and the
API version, a nil `Address` yields a nil URL and no error (handle locally
via the dynamic engine); a set address is parsed and returned; and an
address that fails URL parsing yields `InvalidError`
("failed to parse location address"). -/
theorem claim_C6_address_handling
    (parse : String → Except String String) (st : StoreState) (id : ResourceID)
    (locationName apiVersion : String) (loc : Location)
    (rt : String × LocationResourceTypeConfiguration)
    (hloc : st.locations.lookup (LocationID id locationName) = some loc)
    (hrt : findLocationResourceType loc id = some rt)
    (hver : rt.2.apiVersions.contains apiVersion = true) :
    (loc.properties.address = none →
      ValidateResourceType parse st id locationName apiVersion = .ok none) ∧
    (∀ a u : String, loc.properties.address = some a → parse a = .ok u →
      ValidateResourceType parse st id locationName apiVersion = .ok (some u)) ∧
    (∀ a e : String, loc.properties.address = some a → parse a = .error e →
      ValidateResourceType parse st id locationName apiVersion =
        .error (.invalid ("failed to parse location address: " ++ e))) := by
  have hbase : ∀ result : Except UCPError (Option String),
      (match loc.properties.address with
        | none => Except.ok none
        | some addr =>
          match parse addr with
          | Except.error e => Except.error (UCPError.invalid ("failed to parse location address: " ++ e))
          | Except.ok u => Except.ok (some u)) = result →
      ValidateResourceType parse st id locationName apiVersion = result := by
    intro result hres
    unfold ValidateResourceType
    rw [hloc]
    dsimp only
    rw [hrt]
    dsimp only
    rw [hver, if_pos (show (true : Bool) = true from rfl)]
    exact hres
  refine ⟨?_, ?_, ?_⟩
  · intro hnone
    exact hbase _ (by rw [hnone])
  · intro a u ha hparse
    exact hbase _ (by rw [ha]; dsimp only; rw [hparse])
  · intro a e ha hparse
    exact hbase _ (by rw [ha]; dsimp only; rw [hparse])

/-- Witness for C6: with `containers` registered at the location, a nil
address handles locally, an address `http://rp:8080` is returned parsed,
and a parser failure surfaces as the invalid-address error. -/
theorem claim_C6_witness :
    ValidateResourceType (fun s => .ok s)
      ⟨[], [],
        [("/planes/radius/local/providers/System.Resources/resourceProviders/Applications.Core/locations/global",
          ⟨⟨none, [("containers", ⟨["2023-10-01-preview"]⟩)]⟩⟩)]⟩
      ⟨"radius", "local", some "rg1", "Applications.Core", [("containers", "c1")]⟩
      "global" "2023-10-01-preview" = .ok none ∧
    ValidateResourceType (fun s => .ok s)
      ⟨[], [],
        [("/planes/radius/local/providers/System.Resources/resourceProviders/Applications.Core/locations/global",
          ⟨⟨some "http://rp:8080", [("containers", ⟨["2023-10-01-preview"]⟩)]⟩⟩)]⟩
      ⟨"radius", "local", some "rg1", "Applications.Core", [("containers", "c1")]⟩
      "global" "2023-10-01-preview" = .ok (some "http://rp:8080") ∧
    ValidateResourceType (fun _ => .error "bad url")
      ⟨[], [],
        [("/planes/radius/local/providers/System.Resources/resourceProviders/Applications.Core/locations/global",
          ⟨⟨some "::not-a-url::", [("containers", ⟨["2023-10-01-preview"]⟩)]⟩⟩)]⟩
      ⟨"radius", "local", some "rg1", "Applications.Core", [("containers", "c1")]⟩
      "global" "2023-10-01-preview" =
      .error (.invalid "failed to parse location address: bad url") := by
  refine ⟨?_, ?_, ?_⟩
  · exact (claim_C6_address_handling (fun s => .ok s)
      ⟨[], [],
        [("/planes/radius/local/providers/System.Resources/resourceProviders/Applications.Core/locations/global",
          ⟨⟨none, [("containers", ⟨["2023-10-01-preview"]⟩)]⟩⟩)]⟩
      ⟨"radius", "local", some "rg1", "Applications.Core", [("containers", "c1")]⟩
      "global" "2023-10-01-preview"
      ⟨⟨none, [("containers", ⟨["2023-10-01-preview"]⟩)]⟩⟩
      ("containers", ⟨["2023-10-01-preview"]⟩)
      (by rfl) (by rfl) (by rfl)).1 (by rfl)
  · exact (claim_C6_address_handling (fun s => .ok s)
      ⟨[], [],
        [("/planes/radius/local/providers/System.Resources/resourceProviders/Applications.Core/locations/global",
          ⟨⟨some "http://rp:8080", [("containers", ⟨["2023-10-01-preview"]⟩)]⟩⟩)]⟩
      ⟨"radius", "local", some "rg1", "Applications.Core", [("containers", "c1")]⟩
      "global" "2023-10-01-preview"
      ⟨⟨some "http://rp:8080", [("containers", ⟨["2023-10-01-preview"]⟩)]⟩⟩
      ("containers", ⟨["2023-10-01-preview"]⟩)
      (by rfl) (by rfl) (by rfl)).2.1 "http://rp:8080" "http://rp:8080" (by rfl) (by rfl)
  · exact (claim_C6_address_handling (fun _ => .error "bad url")
      ⟨[], [],
        [("/planes/radius/local/providers/System.Resources/resourceProviders/Applications.Core/locations/global",
          ⟨⟨some "::not-a-url::", [("containers", ⟨["2023-10-01-preview"]⟩)]⟩⟩)]⟩
      ⟨"radius", "local", some "rg1", "Applications.Core", [("containers", "c1")]⟩
      "global" "2023-10-01-preview"
      ⟨⟨some "::not-a-url::", [("containers", ⟨["2023-10-01-preview"]⟩)]⟩⟩
      ("containers", ⟨["2023-10-01-preview"]⟩)
      (by rfl) (by rfl) (by rfl)).2.2 "::not-a-url::" "bad url" (by rfl) (by rfl)

/-- C2: when the stored provisioning state of a notification target is not
terminal, `DeclarativeFilter.notify` returns the error
"resource (id) is not in a terminal state: (state)" before performing any
`Save` and before calling `QueueAsyncOperation`: the effects record shows
zero saves and zero queue calls, so the stored state is unchanged and no
duplicate operation message is enqueued. -/
theorem claim_C2_notify_fail_fast
    (env : NotifyEnv) (id : String) (obj : Resource)
    (hget : env.get id = .ok obj)
    (hterm : IsTerminal (provisioningState obj) = false) :
    notify env id =
      (.error ("resource " ++ id ++ " is not in a terminal state: " ++ provisioningState obj),
        ⟨[], 0⟩) := by
  unfold notify
  rw [hget]
  dsimp only
  rw [hterm]
  rfl

/-- Witness for C2: a resource stored with provisioning state `Updating`
is rejected with the exact error message and no side effects, whatever
the save and queue collaborators would have answered. -/
theorem claim_C2_witness :
    notify ⟨fun _ => .ok [("properties", JSON.obj [("provisioningState", JSON.str "Updating")])],
        .ok (), .ok ()⟩ "/planes/radius/local/resourceGroups/rg1/providers/Applications.Core/applications/a1" =
      (.error "resource /planes/radius/local/resourceGroups/rg1/providers/Applications.Core/applications/a1 is not in a terminal state: Updating",
        ⟨[], 0⟩) := by
  have h := claim_C2_notify_fail_fast
    ⟨fun _ => .ok [("properties", JSON.obj [("provisioningState", JSON.str "Updating")])],
      .ok (), .ok ()⟩
    "/planes/radius/local/resourceGroups/rg1/providers/Applications.Core/applications/a1"
    [("properties", JSON.obj [("provisioningState", JSON.str "Updating")])]
    (by rfl) (by rfl)
  rw [h]
  rfl

/-- C9: `DeclarativeFilter.setProvisioningState` leaves its resource
argument unchanged (it mutates only the discarded JSON-decoded copy), and
consequently in `notify` both the pre-queue `Save` (intended to record
`Updating`) and the queue-failure `Save` (intended to record `Failed`)
persist the object exactly as fetched, with its original provisioning
state. -/
theorem claim_C9_setProvisioningState_frame :
    (∀ (r : Resource) (ps : String), setProvisioningState r ps = r) ∧
    (∀ (env : NotifyEnv) (id : String) (obj : Resource),
      env.get id = .ok obj → IsTerminal (provisioningState obj) = true →
      env.saveResult = .ok () →
      ((env.queueResult = .ok () → notify env id = (.ok (), ⟨[obj], 1⟩)) ∧
        (∀ e : String, env.queueResult = .error e →
          notify env id = (.error e, ⟨[obj, obj], 1⟩)))) := by
  constructor
  · intro r ps
    rfl
  · intro env id obj hget hterm hsave
    constructor
    · intro hq
      unfold notify
      rw [hget]
      dsimp only
      rw [hterm, if_pos (show (true : Bool) = true from rfl), hsave]
      dsimp only
      rw [hq]
      rfl
    · intro e hq
      unfold notify
      rw [hget]
      dsimp only
      rw [hterm, if_pos (show (true : Bool) = true from rfl), hsave]
      dsimp only
      rw [hq]
      rfl

/-- Witness for C9: setting `Updating` on a `Succeeded` resource returns it
unchanged, and a notify run whose queue fails saves that untouched object
twice (never `Updating`, never `Failed`). -/
theorem claim_C9_witness :
    setProvisioningState [("properties", JSON.obj [("provisioningState", JSON.str "Succeeded")])]
        ProvisioningStateUpdating =
      [("properties", JSON.obj [("provisioningState", JSON.str "Succeeded")])] ∧
    notify ⟨fun _ => .ok [("properties", JSON.obj [("provisioningState", JSON.str "Succeeded")])],
        .ok (), .error "queue unavailable"⟩ "id1" =
      (.error "queue unavailable",
        ⟨[[("properties", JSON.obj [("provisioningState", JSON.str "Succeeded")])],
          [("properties", JSON.obj [("provisioningState", JSON.str "Succeeded")])]], 1⟩) := by
  refine ⟨claim_C9_setProvisioningState_frame.1
    [("properties", JSON.obj [("provisioningState", JSON.str "Succeeded")])]
    ProvisioningStateUpdating, ?_⟩
  exact (claim_C9_setProvisioningState_frame.2
    ⟨fun _ => .ok [("properties", JSON.obj [("provisioningState", JSON.str "Succeeded")])],
      .ok (), .error "queue unavailable"⟩ "id1"
    [("properties", JSON.obj [("provisioningState", JSON.str "Succeeded")])]
    (by rfl) (by rfl) (by rfl)).2 "queue unavailable" (by rfl)

/-- C10: `DeclarativeFilter.provisioningState` returns `Succeeded` (a
terminal state) whenever the properties map is absent, the
`provisioningState` key is missing, or its value is not a string — so such
resources pass the terminal-state gate in `notify`; and the versioned-API
conversion maps an empty provisioning state to `"Succeeded"`. -/
theorem claim_C10_default_succeeded :
    (∀ r : Resource, getField r "properties" = none →
      provisioningState r = ProvisioningStateSucceeded) ∧
    (∀ (r : Resource) (props : List (String × JSON)),
      getField r "properties" = some (JSON.obj props) →
      getField props "provisioningState" = none →
      provisioningState r = ProvisioningStateSucceeded) ∧
    (∀ (r : Resource) (props : List (String × JSON)) (j : JSON),
      getField r "properties" = some (JSON.obj props) →
      getField props "provisioningState" = some j →
      (∀ s : String, j ≠ JSON.str s) →
      provisioningState r = ProvisioningStateSucceeded) ∧
    IsTerminal ProvisioningStateSucceeded = true ∧
    fromProvisioningStateDataModel "" = ProvisioningStateSucceeded := by
  refine ⟨?_, ?_, ?_, rfl, rfl⟩
  · intro r h
    unfold provisioningState
    dsimp only
    rw [h]
    rfl
  · intro r props h1 h2
    unfold provisioningState
    dsimp only
    rw [h1]
    dsimp only
    rw [h2]
  · intro r props j h1 h2 hne
    unfold provisioningState
    dsimp only
    rw [h1]
    dsimp only
    rw [h2]
    cases j with
    | str s => exact absurd rfl (hne s)
    | null => rfl
    | bool b => rfl
    | num n => rfl
    | arr elems => rfl
    | obj fields => rfl

/-- Witness for C10: a resource with no properties map, one with properties
but no `provisioningState`, and one whose `provisioningState` is a number
all read back as `Succeeded`. -/
theorem claim_C10_witness :
    provisioningState [("name", JSON.str "a1")] = ProvisioningStateSucceeded ∧
    provisioningState [("properties", JSON.obj [("color", JSON.str "blue")])] =
      ProvisioningStateSucceeded ∧
    provisioningState [("properties", JSON.obj [("provisioningState", JSON.num 7)])] =
      ProvisioningStateSucceeded := by
  refine ⟨claim_C10_default_succeeded.1 [("name", JSON.str "a1")] (by rfl), ?_, ?_⟩
  · exact claim_C10_default_succeeded.2.1 [("properties", JSON.obj [("color", JSON.str "blue")])]
      [("color", JSON.str "blue")] (by rfl) (by rfl)
  · exact claim_C10_default_succeeded.2.2.1
      [("properties", JSON.obj [("provisioningState", JSON.num 7)])]
      [("provisioningState", JSON.num 7)] (JSON.num 7) (by rfl) (by rfl)
      (by intro s h; cases h)

/-- C7: a request whose api-version query parameter is not in the supported
set is answered with an error body whose code is
`InvalidApiVersionParameter` and whose message lists the supported
api-versions. -/
theorem claim_C7_bad_api_version
    (operationType requested : String) (supported : List String)
    (h : supported.contains requested = false) :
    validateApiVersion operationType supported requested =
      some ⟨"InvalidApiVersionParameter",
        "API version '" ++ requested ++ "' for type '" ++ operationType ++
          "' is not supported. The supported api-versions are '" ++
          String.intercalate "', '" supported ++ "'."⟩ := by
  unfold validateApiVersion
  rw [h]
  rfl

/-- Witness for C7: the exact request and response of
`Test_RequestWithBadAPIVersion`. -/
theorem claim_C7_witness :
    validateApiVersion "ucp/openapi" ["2022-09-01-privatepreview"] "unsupported-version" =
      some ⟨"InvalidApiVersionParameter",
        "API version 'unsupported-version' for type 'ucp/openapi' is not supported. The supported api-versions are '2022-09-01-privatepreview'."⟩ := by
  have h := claim_C7_bad_api_version "ucp/openapi" "unsupported-version"
    ["2022-09-01-privatepreview"] (by rfl)
  rw [h]
  rfl

/-- C8: a request matching no registered route's path is answered 404
(`notFound`), a request matching a path but no registered method is
answered 405 (`methodNotAllowed`), and every dispatch yields exactly one of
the three outcomes — dispatch is a total function and cannot panic. -/
theorem claim_C8_dispatch :
    (∀ (routes : List Route) (method path : String),
      routes.any (fun rt => rt.path == path) = false →
      dispatch routes method path = .notFound) ∧
    (∀ (routes : List Route) (method path : String),
      routes.any (fun rt => rt.path == path) = true →
      routes.any (fun rt => rt.path == path && rt.methods.contains method) = false →
      dispatch routes method path = .methodNotAllowed) ∧
    (∀ (routes : List Route) (method path : String),
      dispatch routes method path = .handled ∨ dispatch routes method path = .notFound ∨
        dispatch routes method path = .methodNotAllowed) := by
  refine ⟨?_, ?_, ?_⟩
  · intro routes method path h
    have h2 : routes.any (fun rt => rt.path == path && rt.methods.contains method) = false := by
      cases hA : routes.any (fun rt => rt.path == path && rt.methods.contains method) with
      | false => rfl
      | true =>
        exfalso
        have ⟨rt, hrt, hp⟩ := List.any_eq_true.mp hA
        rw [Bool.and_eq_true] at hp
        have hpath : routes.any (fun x => x.path == path) = true :=
          List.any_eq_true.mpr ⟨rt, hrt, hp.1⟩
        rw [h] at hpath
        cases hpath
    unfold dispatch
    rw [h2, h]
    rfl
  · intro routes method path hpath hnm
    unfold dispatch
    rw [hnm, hpath]
    rfl
  · intro routes method path
    unfold dispatch
    by_cases h1 : routes.any (fun rt => rt.path == path && rt.methods.contains method) = true
    · rw [if_pos h1]
      exact Or.inl rfl
    · rw [if_neg h1]
      by_cases h2 : routes.any (fun rt => rt.path == path) = true
      · rw [if_pos h2]
        exact Or.inr (Or.inr rfl)
      · rw [if_neg h2]
        exact Or.inr (Or.inl rfl)

/-- Witness for C8: with only `GET /planes` registered, `DELETE /planes`
answers 405 and `GET /abc` answers 404 (the scenarios of
`Test_MethodNotAllowed` and `Test_NotFound`). -/
theorem claim_C8_witness :
    dispatch [⟨"/planes", ["GET"]⟩] "DELETE" "/planes" = .methodNotAllowed ∧
    dispatch [⟨"/planes", ["GET"]⟩] "GET" "/abc" = .notFound := by
  exact ⟨claim_C8_dispatch.2.1 [⟨"/planes", ["GET"]⟩] "DELETE" "/planes" (by rfl) (by rfl),
    claim_C8_dispatch.1 [⟨"/planes", ["GET"]⟩] "GET" "/abc" (by rfl)⟩

end Radius
